import Mathlib

/-!
Verification of the swddude SWD debug tool against its specification.

The development shallowly embeds the protocol-level functions of the
repository: the SWD request-header encoder and parity function
(swd_interface.cpp / swd_mpsse.cpp), the MPSSE SWD driver's ACK handling,
the DebugAccessPort SELECT cache and reset logic (swd_dp.cpp), the Target
facade's bulk memory reads, reset-and-halt and breakpoint management
(target.cpp), remote-pointer comparison (rptr.h), and the LPC checksum
fixup (swddude.cpp).  Machine integers are modelled as Nat with explicit
masking/mod where the C code relies on fixed-width behaviour.
-/

namespace Swddude

/-- Result variants of the Err::Error type used throughout the tool
(success / try_again / argument_error / failure / timeout). -/
inductive Error
  | success
  | try_again
  | argument_error
  | failure
  | timeout
deriving DecidableEq, Repr

/-! ## SWD request header and parity (swd_mpsse.cpp, swd_interface.cpp) -/

/-- Embedding of `swd_request(address, debug_port, write)`: builds the 8-bit
SWD request header with Start (bit 0), APnDP (bit 1), RnW (bit 2), the two
address bits (bits 4:3), parity (bit 5) and Park (bit 7). -/
def swd_request (address : Nat) (debug_port : Bool) (write : Bool) : Nat :=
  let parity0 : Bool := xor debug_port write
  let request : Nat :=
    1 ||| (if debug_port then 0 else 2) |||
    (if write then 0 else 4) |||
    ((address &&& 3) <<< 3) ||| 128
  let parity : Bool :=
    if address &&& 3 = 1 ∨ address &&& 3 = 2 then !parity0 else parity0
  if parity then request ||| 32 else request

/-- Embedding of `swd_parity(data)`: the xor-fold parity of a 32-bit word. -/
def swd_parity (data : Nat) : Bool :=
  let s1 := data ^^^ (data >>> 16)
  let s2 := s1 ^^^ (s1 >>> 8)
  let s3 := s2 ^^^ (s2 >>> 4)
  let s4 := s3 ^^^ (s3 >>> 2)
  let s5 := s4 ^^^ (s4 >>> 1)
  s5 &&& 1 = 1

/-! ## MPSSE SWD driver ACK handling (swd_mpsse.cpp) -/

/-- Embedding of `swd_response_to_error(response)`: maps the 3-bit SWD ACK
field to a result (OK=1 to success, WAIT=2 to try_again, FAULT=4 and any
other pattern to failure). -/
def swd_response_to_error (response : Nat) : Error :=
  if response = 1 then .success
  else if response = 2 then .try_again
  else if response = 4 then .failure
  else .failure

/-- Outcome of one `MPSSESWDDriver::read` transaction: the returned error
and the value stored through the out-pointer, if any. -/
structure ReadOutcome where
  err : Error
  data : Option Nat
deriving DecidableEq, Repr

/-- Embedding of `MPSSESWDDriver::read`, as a function of the bytes the
adapter returns: `r0` holds the 3 ACK bits in its top bits; when ACK = OK
the data phase supplies four data bytes `b1..b4` (LSB first) and `b5`
holding the parity bit in bit 6.  The received parity is compared against
`swd_parity` of the assembled word; a mismatch is a failure and no data is
delivered. -/
def mpsse_swd_read (r0 b1 b2 b3 b4 b5 : Nat) : ReadOutcome :=
  let ack := r0 >>> 5
  if ack = 1 then
    let temp := b1 ||| (b2 <<< 8) ||| (b3 <<< 16) ||| (b4 <<< 24)
    if (b5 >>> 6) &&& 1 = (if swd_parity temp then 1 else 0) then
      { err := swd_response_to_error ack, data := some temp }
    else
      { err := .failure, data := none }
  else
    { err := swd_response_to_error ack, data := none }

/-- Embedding of the result of `MPSSESWDDriver::write`: the returned error
is determined by the ACK byte alone (the data phase is only transmitted on
ACK = OK and does not affect the result). -/
def mpsse_swd_write (r0 : Nat) : Error :=
  swd_response_to_error (r0 >>> 5)

/-! ## Target breakpoint management (target.cpp) -/

/-- Base address of the BP_COMP registers (`BPU::BP_COMP0`). -/
def BP_COMP0 : Nat := 0xE0002008

/-- Embedding of `Target::enable_breakpoint(n, addr)`: rejects addresses
outside the bottom 512 MiB, otherwise emits a single poke of BP_COMPn with
the match-half, masked address and enable bit.  The result is the error
and the list of (address, value) pokes issued. -/
def enable_breakpoint (n addr : Nat) : Error × List (Nat × Nat) :=
  if addr &&& 0xE0000000 ≠ 0 then (.argument_error, [])
  else
    let match_type : Nat := if addr &&& 2 ≠ 0 then 2 else 1
    (.success, [(BP_COMP0 + n * 4, (match_type <<< 30) ||| (addr &&& 0x1FFFFFFC) ||| 1)])

/-! ## Remote pointers (rptr.h) -/

/-- Embedding of the `rptr_base` value: a typed 32-bit target address. -/
structure RptrBase where
  bits : Nat
deriving DecidableEq, Repr

/-- Embedding of `rptr_base::operator==`. -/
def rptr_eq (a b : RptrBase) : Bool := decide (a.bits = b.bits)

/-- Embedding of `rptr_base::operator!=`. -/
def rptr_ne (a b : RptrBase) : Bool := decide (a.bits ≠ b.bits)

/-- Embedding of `rptr_base::operator<`. -/
def rptr_lt (a b : RptrBase) : Bool := decide (a.bits < b.bits)

/-- Embedding of `rptr_base::operator>`; the source body compares with
`_bits < other._bits`. -/
def rptr_gt (a b : RptrBase) : Bool := decide (a.bits < b.bits)

/-- Embedding of `rptr_base::operator>=`. -/
def rptr_ge (a b : RptrBase) : Bool := decide (a.bits ≥ b.bits)

/-- Embedding of `rptr_base::operator<=`. -/
def rptr_le (a b : RptrBase) : Bool := decide (a.bits ≤ b.bits)

/-! ## Debug Access Port (swd_dp.cpp)

The DAP wraps the SWD transport; every public operation issues zero or
more SWD bus transactions and maintains the cached copy `_SELECT` of the
last value written to the SELECT register.  The embedding records the
frames issued on the success path of the transport. -/

/-- One SWD bus transaction as handed to the SWDDriver: a read or a write
of a 2-bit register address, on the debug port (`dp = true`) or the access
port, with the data word for writes. -/
inductive Frame
  | rd (reg : Nat) (dp : Bool)
  | wr (reg : Nat) (dp : Bool) (data : Nat)
deriving DecidableEq, Repr

/-- State of a `DebugAccessPort`: the cached `_SELECT` value.  The
constructor initialises it to `(word_t)-1`. -/
structure DAP where
  select : Nat
deriving DecidableEq, Repr

/-- `DebugAccessPort::DebugAccessPort`: the cache starts at `-1` cast to
uint32. -/
def DAP.init : DAP := ⟨0xFFFFFFFF⟩

/-- `DebugAccessPort::write_select(data)`: writes SELECT (DP register 2)
and stores the value in the cache. -/
def write_select (_s : DAP) (data : Nat) : Error × List Frame × DAP :=
  (.success, [Frame.wr 2 true data], ⟨data⟩)

/-- `DebugAccessPort::write_abort(data)`: writes ABORT (DP register 0). -/
def write_abort (s : DAP) (data : Nat) : Error × List Frame × DAP :=
  (.success, [Frame.wr 0 true data], s)

/-- `DebugAccessPort::write_ctrlstat(data)`: clears CTRLSEL via SELECT
first if the cached bit is set, then writes CTRL/STAT (DP register 1). -/
def write_ctrlstat (s : DAP) (data : Nat) : Error × List Frame × DAP :=
  if s.select &&& 1 ≠ 0 then
    let (_, f1, s1) := write_select s (s.select &&& 0xFFFFFFFE)
    (.success, f1 ++ [Frame.wr 1 true data], s1)
  else
    (.success, [Frame.wr 1 true data], s)

/-- `DebugAccessPort::read_ctrlstat(data)`: clears CTRLSEL via SELECT
first if the cached bit is set, then reads CTRL/STAT. -/
def read_ctrlstat (s : DAP) : Error × List Frame × DAP :=
  if s.select &&& 1 ≠ 0 then
    let (_, f1, s1) := write_select s (s.select &&& 0xFFFFFFFE)
    (.success, f1 ++ [Frame.rd 1 true], s1)
  else
    (.success, [Frame.rd 1 true], s)

/-- `DebugAccessPort::read_idcode(data)`: reads IDCODE (DP register 0). -/
def read_idcode (s : DAP) : Error × List Frame × DAP :=
  (.success, [Frame.rd 0 true], s)

/-- `DebugAccessPort::read_resend(data)`: reads RESEND (DP register 2). -/
def read_resend (s : DAP) : Error × List Frame × DAP :=
  (.success, [Frame.rd 2 true], s)

/-- `DebugAccessPort::read_rdbuff(data)`: reads RDBUFF (DP register 3). -/
def read_rdbuff (s : DAP) : Error × List Frame × DAP :=
  (.success, [Frame.rd 3 true], s)

/-- `DebugAccessPort::select_ap_bank(ap, address)`: computes the proposed
SELECT value `(ap << 24) | (address & 0xF0) | (_SELECT & 1)` and writes
SELECT only when it differs from the cached value. -/
def select_ap_bank (s : DAP) (ap address : Nat) : Error × List Frame × DAP :=
  let sel := (ap <<< 24) ||| (address &&& 0xF0) ||| (s.select &&& 1)
  if sel ≠ s.select then write_select s sel
  else (.success, [], s)

/-- `DebugAccessPort::reset_state()`: writes SELECT = 0, then ABORT with
the four sticky-error clear bits, then CTRL/STAT with the two power-up
request bits. -/
def reset_state (s : DAP) : Error × List Frame × DAP :=
  let (_, f1, s1) := write_select s 0
  let (_, f2, s2) := write_abort s1 ((1 <<< 1) ||| (1 <<< 2) ||| (1 <<< 3) ||| (1 <<< 4))
  let (_, f3, s3) := write_ctrlstat s2 ((1 <<< 30) ||| (1 <<< 28))
  (.success, f1 ++ f2 ++ f3, s3)

/-- `DebugAccessPort::start_read_ap(ap_index, address)`: rejects an AP
register address whose two low bits are not zero, otherwise selects the
AP bank and issues the posted read, discarding its result. -/
def start_read_ap (s : DAP) (ap_index address : Nat) : Error × List Frame × DAP :=
  if address &&& 3 ≠ 0 then (.argument_error, [], s)
  else
    let (_, f, s1) := select_ap_bank s ap_index address
    (.success, f ++ [Frame.rd ((address >>> 2) &&& 3) false], s1)

/-- `DebugAccessPort::step_read_ap(ap_index, address, last)`: rejects a
misaligned AP register address, otherwise selects the AP bank and issues
the next posted read (the transport returns the previous result). -/
def step_read_ap (s : DAP) (ap_index address : Nat) : Error × List Frame × DAP :=
  if address &&& 3 ≠ 0 then (.argument_error, [], s)
  else
    let (_, f, s1) := select_ap_bank s ap_index address
    (.success, f ++ [Frame.rd ((address >>> 2) &&& 3) false], s1)

/-- `DebugAccessPort::write_ap(ap_index, address, data)`: rejects a
misaligned AP register address, otherwise selects the AP bank and writes
the AP register. -/
def write_ap (s : DAP) (ap_index address data : Nat) : Error × List Frame × DAP :=
  if address &&& 3 ≠ 0 then (.argument_error, [], s)
  else
    let (_, f, s1) := select_ap_bank s ap_index address
    (.success, f ++ [Frame.wr ((address >>> 2) &&& 3) false data], s1)

/-- A public DebugAccessPort operation, for stating invariants over
arbitrary operation sequences. -/
inductive DAPOp
  | writeSelect (v : Nat)
  | writeAbort (v : Nat)
  | writeCtrlstat (v : Nat)
  | readCtrlstat
  | readIdcode
  | readResend
  | readRdbuff
  | selectApBank (ap addr : Nat)
  | resetState
  | startReadAp (ap addr : Nat)
  | stepReadAp (ap addr : Nat)
  | writeAp (ap addr v : Nat)
deriving DecidableEq, Repr

/-- Dispatch one DAP operation. -/
def runOp (s : DAP) : DAPOp → Error × List Frame × DAP
  | .writeSelect v => write_select s v
  | .writeAbort v => write_abort s v
  | .writeCtrlstat v => write_ctrlstat s v
  | .readCtrlstat => read_ctrlstat s
  | .readIdcode => read_idcode s
  | .readResend => read_resend s
  | .readRdbuff => read_rdbuff s
  | .selectApBank ap addr => select_ap_bank s ap addr
  | .resetState => reset_state s
  | .startReadAp ap addr => start_read_ap s ap addr
  | .stepReadAp ap addr => step_read_ap s ap addr
  | .writeAp ap addr v => write_ap s ap addr v

/-- Run a sequence of DAP operations, concatenating the issued frames. -/
def runOps (s : DAP) : List DAPOp → List Frame × DAP
  | [] => ([], s)
  | op :: rest =>
      let (_, f, s1) := runOp s op
      let (fs, s2) := runOps s1 rest
      (f ++ fs, s2)

/-- The value of the last SELECT write in a frame list, or the default
when the list contains none. -/
def lastSelectD (fs : List Frame) (dflt : Nat) : Nat :=
  fs.foldl (fun acc f => match f with | Frame.wr 2 true v => v | _ => acc) dflt

/-! ## Target facade: bulk memory reads (target.cpp) -/

/-- A Target-level DAP operation as issued by `Target::read_words` through
its private helpers (`write_ap`, `start_read_ap`, `step_read_ap`,
`final_read_ap`); addresses are MEM-AP register offsets (CSW = 0x00,
TAR = 0x04, DRW = 0x0C). -/
inductive TOp
  | writeAp (addr data : Nat)
  | startReadAp (addr : Nat)
  | stepReadAp (addr : Nat)
  | readRdbuff
deriving DecidableEq, Repr

/-- Modelled from the spec: the MEM-AP register file and the ADIv5
posted-read discipline, which are target hardware and not code of this
repository.  Per the spec, the MEM-AP holds CSW (mode word, bit 4 is
address auto-increment), TAR (transfer address) and DRW (data window onto
memory at TAR); an AP read is posted, so its value is latched and handed
back by the next AP read or by RDBUFF. -/
structure MemSys where
  csw : Nat
  tar : Nat
  posted : Nat
deriving DecidableEq, Repr

/-- Modelled from the spec: the MEM-AP address auto-increment, which
wraps at a 1 KiB boundary per ADIv5 — only the low ten bits of TAR
advance by 4, the upper bits are unchanged (spec on bulk accesses and its
design note that auto-increment wraps at a 1 KiB boundary and the source
does not split transfers). -/
def tarInc (t : Nat) : Nat :=
  t - t % 1024 + (t % 1024 + 4) % 1024

/-- Modelled from the spec: the value produced by reading a MEM-AP
register, and the successor hardware state.  Reading DRW returns the
memory word at TAR and, when CSW bit 4 is set, advances TAR with the
1 KiB-wrapping auto-increment. -/
def apReadReg (mem : Nat → Nat) (s : MemSys) (addr : Nat) : Nat × MemSys :=
  if addr = 0x00 then (s.csw, s)
  else if addr = 0x04 then (s.tar, s)
  else if addr = 0x0C then
    (mem s.tar,
     if s.csw &&& (1 <<< 4) ≠ 0 then { s with tar := tarInc s.tar } else s)
  else (0, s)

/-- Modelled from the spec: writing a MEM-AP register (CSW or TAR; memory
writes through DRW are not needed by the read path). -/
def apWriteReg (s : MemSys) (addr data : Nat) : MemSys :=
  if addr = 0x00 then { s with csw := data }
  else if addr = 0x04 then { s with tar := data }
  else s

/-- A posted AP read: issue the register read and latch its value for the
next step or RDBUFF drain (`Target::start_read_ap`
via `DebugAccessPort::start_read_ap_in_bank`). -/
def sysStartRead (mem : Nat → Nat) (s : MemSys) (addr : Nat) : MemSys :=
  let (v, s1) := apReadReg mem s addr
  { s1 with posted := v }

/-- A pipelined AP read step: returns the previously latched value and
issues the next posted read (`Target::step_read_ap`). -/
def sysStepRead (mem : Nat → Nat) (s : MemSys) (addr : Nat) : Nat × MemSys :=
  (s.posted, sysStartRead mem s addr)

/-- Draining the last posted read through RDBUFF without issuing a new AP
read (`Target::final_read_ap` via `DebugAccessPort::read_rdbuff`). -/
def sysRdbuff (s : MemSys) : Nat := s.posted

/-- The pipelined transfer loop of `Target::read_words`: `count`
iterations of `step_read_ap(DRW, &host_buffer_as_words[i])`. -/
def read_words_loop (mem : Nat → Nat) (s : MemSys) : Nat → List Nat × MemSys
  | 0 => ([], s)
  | n+1 =>
      let (v, s1) := sysStepRead mem s 0x0C
      let (rest, s2) := read_words_loop mem s1 n
      (v :: rest, s2)

/-- Embedding of `Target::read_words(target_addr, host_buffer, count)`:
reads CSW, rewrites it with the reserved top bits preserved plus
auto-increment and 4-byte size, writes TAR, then transfers with one
`start_read_ap(DRW)` followed by the step loop.  Returns the words stored
into the host buffer, the trace of Target-level DAP operations, and the
final hardware state. -/
def read_words (mem : Nat → Nat) (s : MemSys) (target_addr count : Nat) :
    List Nat × List TOp × MemSys :=
  let s1 := sysStartRead mem s 0x00
  let csw0 := sysRdbuff s1
  let csw1 := (csw0 &&& 0xFFFFF000) ||| (1 <<< 4) ||| 2
  let s2 := apWriteReg s1 0x00 csw1
  let s3 := apWriteReg s2 0x04 target_addr
  let s4 := sysStartRead mem s3 0x0C
  let (vals, s5) := read_words_loop mem s4 count
  (vals,
   [TOp.startReadAp 0x00, TOp.readRdbuff, TOp.writeAp 0x00 csw1,
    TOp.writeAp 0x04 target_addr, TOp.startReadAp 0x0C]
     ++ List.replicate count (TOp.stepReadAp 0x0C),
   s5)

/-! ## Target facade: reset-and-halt (target.cpp) -/

/-- Address of the Debug Exception and Monitor Control Register. -/
def DEMCR : Nat := 0xE000EDFC

/-- Address of the Application Interrupt and Reset Control Register. -/
def AIRCR : Nat := 0xE000ED0C

/-- Embedding of `Target::poll_for_halt(dfsr_mask)`: success exactly when
DHCSR.S_HALT (bit 17) and a DFSR bit in the mask are both set, otherwise
try_again. -/
def poll_for_halt (dhcsr dfsr dfsr_mask : Nat) : Error :=
  if dhcsr &&& (1 <<< 17) ≠ 0 ∧ dfsr &&& dfsr_mask ≠ 0 then .success else .try_again

/-- The `CheckRetry` loop around `poll_for_halt`: `polls k` gives the
(DHCSR, DFSR) pair observed by the k-th poll; the loop retries try_again
up to the remaining budget and reports the total number of polls made. -/
def retry_poll (polls : Nat → Nat × Nat) (mask : Nat) : Nat → Nat → Error × Nat
  | 0, k => (.try_again, k)
  | b+1, k =>
      match poll_for_halt (polls k).1 (polls k).2 mask with
      | .success => (.success, k + 1)
      | _ => retry_poll polls mask b (k + 1)

/-- Embedding of `Target::reset_and_halt()`: given the DEMCR value read at
entry and the poll observations, returns the overall result, the trace of
32-bit pokes issued (address, value), and the number of polls.  DEMCR is
rewritten with VC_CORERESET (bit 0), VC_HARDERR (bit 10) and bit 24 set;
AIRCR is written with VECTKEY | VECTRESET; on a successful poll DEMCR is
restored to the saved value. -/
def reset_and_halt (demcr0 : Nat) (polls : Nat → Nat × Nat) :
    Error × List (Nat × Nat) × Nat :=
  let w1 : Nat × Nat := (DEMCR, demcr0 ||| (1 <<< 0) ||| (1 <<< 10) ||| (1 <<< 24))
  let w2 : Nat × Nat := (AIRCR, (0x05FA <<< 16) ||| (1 <<< 0))
  match retry_poll polls (1 <<< 3) 1000 0 with
  | (.success, k) => (.success, [w1, w2, (DEMCR, demcr0)], k)
  | (e, k) => (e, [w1, w2], k)

/-! ## LPC checksum fixup (swddude.cpp) -/

/-- The running uint32 sum of the first seven words, as computed by the
loop in `fix_lpc_checksum` (wrap-around 32-bit addition). -/
def lpc_vector_sum (ws : List Nat) : Nat :=
  (ws.take 7).foldl (fun a b => (a + b) % 2^32) 0

/-- Embedding of `fix_lpc_checksum(program, program_length)` on the image
viewed as a list of 32-bit words: returns the image unchanged when shorter
than seven words, otherwise stores the two's-complement negation of the
sum of words 0..6 at word index 7. -/
def fix_lpc_checksum (ws : List Nat) : List Nat :=
  if ws.length * 4 < 7 * 4 then ws
  else ws.set 7 ((2^32 - lpc_vector_sum ws) % 2^32)

/-! ## Helper lemmas -/

/-- For a 32-bit value, the code-region test `addr & 0xE0000000 == 0` is
exactly the bound `addr ≤ 512 MiB − 1`. -/
theorem and_hi_mask_eq_zero_iff (addr : Nat) (h : addr < 2^32) :
    addr &&& 0xE0000000 = 0 ↔ addr ≤ 0x1FFFFFFF := by
  constructor
  · intro h0
    have h1 : addr &&& (2^32 - 1) = addr := by
      rw [Nat.and_pow_two_sub_one_eq_mod]; exact Nat.mod_eq_of_lt h
    have h2 : (2^32 - 1 : Nat) = 0xE0000000 ||| 0x1FFFFFFF := by decide
    have h3 : addr = (addr &&& 0xE0000000) ||| (addr &&& 0x1FFFFFFF) := by
      conv_lhs => rw [← h1, h2, Nat.and_or_distrib_left]
    rw [h0, Nat.zero_or] at h3
    have h4 : addr &&& 0x1FFFFFFF = addr % 2^29 := by
      have : (0x1FFFFFFF : Nat) = 2^29 - 1 := by decide
      rw [this, Nat.and_pow_two_sub_one_eq_mod]
    rw [h3, h4]
    have := Nat.mod_lt addr (show 0 < 2^29 by norm_num)
    omega
  · intro hle
    apply Nat.eq_of_testBit_eq
    intro i
    rw [Nat.testBit_and, Nat.zero_testBit]
    by_cases hi : i < 29
    · have hm : (0xE0000000 : Nat).testBit i = false := by
        interval_cases i <;> decide
      simp [hm]
    · have ha : addr.testBit i = false := by
        apply Nat.testBit_lt_two_pow
        calc addr < 2^29 := by omega
          _ ≤ 2^i := Nat.pow_le_pow_right (by norm_num) (by omega)
      simp [ha]

/-- The wrap-around uint32 folding sum equals the plain sum modulo 2^32. -/
theorem lpc_foldl_mod (ws : List Nat) (a : Nat) (ha : a < 2^32) :
    ws.foldl (fun x y => (x + y) % 2^32) a = (a + ws.sum) % 2^32 := by
  induction ws generalizing a with
  | nil =>
      rw [List.foldl_nil, List.sum_nil, Nat.add_zero, Nat.mod_eq_of_lt ha]
  | cons b t ih =>
      rw [List.foldl_cons, ih ((a + b) % 2^32) (Nat.mod_lt _ (by norm_num)),
          Nat.mod_add_mod, List.sum_cons]
      congr 1
      ring

/-! ## C3: SWD request header shape -/

/-- C3: for every address in 0..3 and every APnDP and RnW choice, the SWD
request header has Start (bit 0) and Park (bit 7) set, carries the address
in bits 4:3, and its parity bit (bit 5) is the xor of the header's APnDP,
RnW, A2 and A3 bits. -/
theorem C3_swd_request_header (address : Nat) (h : address < 4) (dp w : Bool) :
    (swd_request address dp w).testBit 0 = true ∧
    (swd_request address dp w).testBit 7 = true ∧
    ((swd_request address dp w) >>> 3) &&& 3 = address ∧
    (swd_request address dp w).testBit 5 =
      Bool.xor ((swd_request address dp w).testBit 1)
        (Bool.xor ((swd_request address dp w).testBit 2)
          (Bool.xor ((swd_request address dp w).testBit 3)
            ((swd_request address dp w).testBit 4))) := by
  interval_cases address <;> cases dp <;> cases w <;> decide

/-- Witness for C3, at address 2 for a DP read header. -/
theorem C3_swd_request_header_witness :
    2 < 4 ∧
    ((swd_request 2 true false).testBit 0 = true ∧
     (swd_request 2 true false).testBit 7 = true ∧
     ((swd_request 2 true false) >>> 3) &&& 3 = 2 ∧
     (swd_request 2 true false).testBit 5 =
       Bool.xor ((swd_request 2 true false).testBit 1)
         (Bool.xor ((swd_request 2 true false).testBit 2)
           (Bool.xor ((swd_request 2 true false).testBit 3)
             ((swd_request 2 true false).testBit 4)))) :=
  ⟨by decide, C3_swd_request_header 2 (by decide) true false⟩

/-! ## C6: reset_state frame sequence and idempotence -/

/-- C6: reset_state issues exactly the three SWD write frames SELECT = 0,
ABORT = 0x1E, CTRL/STAT = 0x50000000 in that order, from any starting
state; a second call issues the identical frames and ends in the identical
state. -/
theorem C6_reset_state_frames (s : DAP) :
    (reset_state s).2.1 =
      [Frame.wr 2 true 0, Frame.wr 0 true 0x1E, Frame.wr 1 true 0x50000000] ∧
    (reset_state (reset_state s).2.2).2.1 = (reset_state s).2.1 ∧
    (reset_state (reset_state s).2.2).2.2 = (reset_state s).2.2 :=
  ⟨rfl, rfl, rfl⟩

/-! ## C7: breakpoint configuration -/

/-- C7: enable_breakpoint rejects addresses above 512 MiB − 1 with an
argument error, and otherwise writes BP_COMPn with the match-half chosen
by address bit 1, the address masked to bits 28:2, and the enable bit; in
particular index 0 at 0x104 writes 0x40000105 and index 1 at 0x106 writes
0x80000105. -/
theorem C7_enable_breakpoint (n addr : Nat) (h : addr < 2^32) :
    ((enable_breakpoint n addr).1 = .argument_error ↔ ¬ addr ≤ 0x1FFFFFFF) ∧
    (addr ≤ 0x1FFFFFFF →
      enable_breakpoint n addr =
        (.success,
         [(0xE0002008 + n * 4,
           ((if addr &&& 2 ≠ 0 then (2 : Nat) else 1) <<< 30) |||
             (addr &&& 0x1FFFFFFC) ||| 1)])) ∧
    enable_breakpoint 0 0x00000104 = (.success, [(0xE0002008, 0x40000105)]) ∧
    enable_breakpoint 1 0x00000106 = (.success, [(0xE000200C, 0x80000105)]) := by
  refine ⟨?_, ?_, by decide, by decide⟩
  · rw [← and_hi_mask_eq_zero_iff addr h]
    unfold enable_breakpoint
    by_cases h0 : addr &&& 0xE0000000 ≠ 0 <;> simp [h0]
  · intro hle
    have h0 : ¬ addr &&& 0xE0000000 ≠ 0 := by
      simpa using (and_hi_mask_eq_zero_iff addr h).2 hle
    unfold enable_breakpoint
    simp [h0, BP_COMP0]

/-- Witness for C7 at n = 0, addr = 0x104. -/
theorem C7_enable_breakpoint_witness :
    (0x104 : Nat) < 2^32 ∧
    (((enable_breakpoint 0 0x104).1 = .argument_error ↔ ¬ (0x104 : Nat) ≤ 0x1FFFFFFF) ∧
     ((0x104 : Nat) ≤ 0x1FFFFFFF →
       enable_breakpoint 0 0x104 =
         (.success,
          [(0xE0002008 + 0 * 4,
            ((if (0x104 : Nat) &&& 2 ≠ 0 then (2 : Nat) else 1) <<< 30) |||
              ((0x104 : Nat) &&& 0x1FFFFFFC) ||| 1)])) ∧
     enable_breakpoint 0 0x00000104 = (.success, [(0xE0002008, 0x40000105)]) ∧
     enable_breakpoint 1 0x00000106 = (.success, [(0xE000200C, 0x80000105)])) :=
  ⟨by decide, C7_enable_breakpoint 0 0x104 (by decide)⟩

/-! ## C8: remote pointer comparison (code bug in operator>) -/

/-- C8: the source's `rptr_base::operator>` compares with `<` instead of
`>` (a copy-paste slip): for bits 1 and 0, the bit-patterns satisfy
1 > 0, yet the operator returns false; the remaining comparison operators
order by bit-pattern as documented. -/
theorem C8_rptr_gt_bug :
    (1 : Nat) > 0 ∧
    rptr_gt ⟨1⟩ ⟨0⟩ = false ∧
    rptr_lt ⟨0⟩ ⟨1⟩ = true ∧
    rptr_eq ⟨1⟩ ⟨1⟩ = true ∧
    rptr_ne ⟨1⟩ ⟨0⟩ = true ∧
    rptr_le ⟨0⟩ ⟨1⟩ = true ∧
    rptr_ge ⟨1⟩ ⟨0⟩ = true := by decide

/-! ## C9: LPC checksum fixup -/

/-- C9: on an image of at least eight 32-bit words, the fixup stores at
word index 7 the two's-complement negation (mod 2^32) of the sum of words
0..6, and leaves every other word unchanged. -/
theorem C9_fix_lpc_checksum (ws : List Nat) (h8 : 8 ≤ ws.length)
    (_hw : ∀ w ∈ ws, w < 2^32) :
    (fix_lpc_checksum ws).length = ws.length ∧
    (fix_lpc_checksum ws)[7]? = some ((2^32 - (ws.take 7).sum % 2^32) % 2^32) ∧
    ∀ i, i ≠ 7 → (fix_lpc_checksum ws)[i]? = ws[i]? := by
  have hlen : ¬ ws.length * 4 < 7 * 4 := by omega
  have hsum : lpc_vector_sum ws = (ws.take 7).sum % 2^32 := by
    unfold lpc_vector_sum
    rw [lpc_foldl_mod _ 0 (by norm_num), Nat.zero_add]
  unfold fix_lpc_checksum
  rw [if_neg hlen, hsum]
  refine ⟨by simp, ?_, ?_⟩
  · exact List.getElem?_set_eq_of_lt _ (by omega)
  · intro i hi
    exact List.getElem?_set_ne (by omega)

/-- Witness for C9 on a concrete nine-word image. -/
theorem C9_fix_lpc_checksum_witness :
    8 ≤ ([1, 2, 3, 4, 5, 6, 7, 0xAAAAAAAA, 9] : List Nat).length ∧
    (∀ w ∈ ([1, 2, 3, 4, 5, 6, 7, 0xAAAAAAAA, 9] : List Nat), w < 2^32) ∧
    ((fix_lpc_checksum [1, 2, 3, 4, 5, 6, 7, 0xAAAAAAAA, 9]).length =
        ([1, 2, 3, 4, 5, 6, 7, 0xAAAAAAAA, 9] : List Nat).length ∧
     (fix_lpc_checksum [1, 2, 3, 4, 5, 6, 7, 0xAAAAAAAA, 9])[7]? =
       some ((2^32 - (([1, 2, 3, 4, 5, 6, 7, 0xAAAAAAAA, 9] : List Nat).take 7).sum % 2^32) % 2^32) ∧
     ∀ i, i ≠ 7 →
       (fix_lpc_checksum [1, 2, 3, 4, 5, 6, 7, 0xAAAAAAAA, 9])[i]? =
         ([1, 2, 3, 4, 5, 6, 7, 0xAAAAAAAA, 9] : List Nat)[i]?) :=
  ⟨by decide, by decide,
   C9_fix_lpc_checksum [1, 2, 3, 4, 5, 6, 7, 0xAAAAAAAA, 9] (by decide) (by decide)⟩

/-! ## C10: misaligned AP register addresses -/

/-- C10: start_read_ap, step_read_ap and write_ap reject an AP register
address whose two low bits are not both zero with an argument error,
issuing no SWD frame and leaving the SELECT cache untouched. -/
theorem C10_ap_misaligned_address (s : DAP) (ap address data : Nat)
    (h : address &&& 3 ≠ 0) :
    start_read_ap s ap address = (.argument_error, [], s) ∧
    step_read_ap s ap address = (.argument_error, [], s) ∧
    write_ap s ap address data = (.argument_error, [], s) := by
  unfold start_read_ap step_read_ap write_ap
  simp [h]

/-- Witness for C10 at address 1 from the freshly constructed DAP. -/
theorem C10_ap_misaligned_address_witness :
    (1 : Nat) &&& 3 ≠ 0 ∧
    (start_read_ap DAP.init 0 1 = (.argument_error, [], DAP.init) ∧
     step_read_ap DAP.init 0 1 = (.argument_error, [], DAP.init) ∧
     write_ap DAP.init 0 1 0 = (.argument_error, [], DAP.init)) :=
  ⟨by decide, C10_ap_misaligned_address DAP.init 0 1 0 (by decide)⟩

/-! ## C5: SELECT cache invariant -/

/-- Folding `lastSelectD` over an appended frame list threads the default
through the first part. -/
theorem lastSelectD_append (f g : List Frame) (d : Nat) :
    lastSelectD (f ++ g) d = lastSelectD g (lastSelectD f d) :=
  List.foldl_append ..

/-- Unfolding lemma: running a cons of operations. -/
theorem runOps_cons (s : DAP) (op : DAPOp) (rest : List DAPOp) :
    runOps s (op :: rest) =
      ((runOp s op).2.1 ++ (runOps (runOp s op).2.2 rest).1,
       (runOps (runOp s op).2.2 rest).2) := rfl

/-- After any single DAP operation, the cached SELECT value equals the
last SELECT frame written during it, defaulting to the previous cache. -/
theorem runOp_select_eq (s : DAP) (op : DAPOp) :
    (runOp s op).2.2.select = lastSelectD (runOp s op).2.1 s.select := by
  cases op <;>
    simp only [runOp, write_select, write_abort, write_ctrlstat, read_ctrlstat,
      read_idcode, read_resend, read_rdbuff, select_ap_bank, reset_state,
      start_read_ap, step_read_ap, write_ap, lastSelectD, List.foldl_append,
      List.foldl_cons, List.foldl_nil] <;>
    split_ifs <;>
    simp [lastSelectD, List.foldl_append]

/-- After any sequence of DAP operations, the cached SELECT value equals
the value of the last SELECT write actually issued (or the starting cache
when none was issued). -/
theorem runOps_select_eq (s : DAP) (ops : List DAPOp) :
    (runOps s ops).2.select = lastSelectD (runOps s ops).1 s.select := by
  induction ops generalizing s with
  | nil => rfl
  | cons op rest ih =>
      rw [runOps_cons, lastSelectD_append, ← runOp_select_eq]
      exact ih (runOp s op).2.2

/-- C5: the SELECT cache invariant.  Every write_select stores the written
value in the cache; across any operation sequence the cache equals the
last SELECT value actually written; select_ap_bank computes
`(ap << 24) | (addr & 0xF0) | cached-CTRLSEL` and issues a SELECT write
exactly when that differs from the cache (and the cache ends up holding
that value either way); and after reset_state the cache is 0. -/
theorem C5_select_cache (s : DAP) (v ap address : Nat) (ops : List DAPOp) :
    (write_select s v).2.2.select = v ∧
    (runOps s ops).2.select = lastSelectD (runOps s ops).1 s.select ∧
    (select_ap_bank s ap address).2.1 =
      (if (ap <<< 24) ||| (address &&& 0xF0) ||| (s.select &&& 1) ≠ s.select
       then [Frame.wr 2 true ((ap <<< 24) ||| (address &&& 0xF0) ||| (s.select &&& 1))]
       else []) ∧
    (select_ap_bank s ap address).2.2.select =
      (ap <<< 24) ||| (address &&& 0xF0) ||| (s.select &&& 1) ∧
    (reset_state s).2.2.select = 0 := by
  refine ⟨rfl, runOps_select_eq s ops, ?_, ?_, rfl⟩
  · dsimp only [select_ap_bank, write_select]
    split_ifs with h1
    · rfl
    · rfl
  · dsimp only [select_ap_bank, write_select]
    split_ifs with h1
    · rfl
    · exact (not_ne_iff.mp h1).symm

/-! ## C4: ACK decoding of SWD transactions -/

/-- C4: the transport result of a read or write transaction is determined
by the 3-bit ACK field: success exactly on ACK = OK = 1 (with the
assembled data word delivered on reads when the received parity matches),
retry exactly on ACK = WAIT = 2, and failure on FAULT = 4 or any other
pattern, or on a read parity mismatch. -/
theorem C4_ack_result (r0 b1 b2 b3 b4 b5 : Nat) (_h0 : r0 < 256) :
    ((mpsse_swd_read r0 b1 b2 b3 b4 b5).err = .success ↔
      r0 >>> 5 = 1 ∧
        (b5 >>> 6) &&& 1 =
          (if swd_parity (b1 ||| (b2 <<< 8) ||| (b3 <<< 16) ||| (b4 <<< 24))
           then 1 else 0)) ∧
    ((mpsse_swd_read r0 b1 b2 b3 b4 b5).err = .success →
      (mpsse_swd_read r0 b1 b2 b3 b4 b5).data =
        some (b1 ||| (b2 <<< 8) ||| (b3 <<< 16) ||| (b4 <<< 24))) ∧
    ((mpsse_swd_read r0 b1 b2 b3 b4 b5).err = .try_again ↔ r0 >>> 5 = 2) ∧
    (r0 >>> 5 = 1 →
      (b5 >>> 6) &&& 1 ≠
        (if swd_parity (b1 ||| (b2 <<< 8) ||| (b3 <<< 16) ||| (b4 <<< 24))
         then 1 else 0) →
      (mpsse_swd_read r0 b1 b2 b3 b4 b5).err = .failure ∧
        (mpsse_swd_read r0 b1 b2 b3 b4 b5).data = none) ∧
    (r0 >>> 5 ≠ 1 → r0 >>> 5 ≠ 2 →
      (mpsse_swd_read r0 b1 b2 b3 b4 b5).err = .failure) ∧
    (mpsse_swd_write r0 = .success ↔ r0 >>> 5 = 1) ∧
    (mpsse_swd_write r0 = .try_again ↔ r0 >>> 5 = 2) ∧
    (r0 >>> 5 ≠ 1 → r0 >>> 5 ≠ 2 → mpsse_swd_write r0 = .failure) := by
  unfold mpsse_swd_read mpsse_swd_write swd_response_to_error
  by_cases ha1 : r0 >>> 5 = 1 <;> by_cases ha2 : r0 >>> 5 = 2 <;>
    simp [ha1, ha2] <;> split_ifs <;> simp_all

/-- Witness for C4: ACK = OK byte with an all-zero data phase and correct
(even) parity. -/
theorem C4_ack_result_witness :
    (32 : Nat) < 256 ∧
    (((mpsse_swd_read 32 0 0 0 0 0).err = .success ↔
       (32 : Nat) >>> 5 = 1 ∧
         ((0 : Nat) >>> 6) &&& 1 =
           (if swd_parity ((0 : Nat) ||| ((0 : Nat) <<< 8) ||| ((0 : Nat) <<< 16) |||
               ((0 : Nat) <<< 24)) then 1 else 0)) ∧
     ((mpsse_swd_read 32 0 0 0 0 0).err = .success →
       (mpsse_swd_read 32 0 0 0 0 0).data =
         some ((0 : Nat) ||| ((0 : Nat) <<< 8) ||| ((0 : Nat) <<< 16) ||| ((0 : Nat) <<< 24))) ∧
     ((mpsse_swd_read 32 0 0 0 0 0).err = .try_again ↔ (32 : Nat) >>> 5 = 2) ∧
     ((32 : Nat) >>> 5 = 1 →
       ((0 : Nat) >>> 6) &&& 1 ≠
         (if swd_parity ((0 : Nat) ||| ((0 : Nat) <<< 8) ||| ((0 : Nat) <<< 16) |||
             ((0 : Nat) <<< 24)) then 1 else 0) →
       (mpsse_swd_read 32 0 0 0 0 0).err = .failure ∧
         (mpsse_swd_read 32 0 0 0 0 0).data = none) ∧
     ((32 : Nat) >>> 5 ≠ 1 → (32 : Nat) >>> 5 ≠ 2 →
       (mpsse_swd_read 32 0 0 0 0 0).err = .failure) ∧
     (mpsse_swd_write 32 = .success ↔ (32 : Nat) >>> 5 = 1) ∧
     (mpsse_swd_write 32 = .try_again ↔ (32 : Nat) >>> 5 = 2) ∧
     ((32 : Nat) >>> 5 ≠ 1 → (32 : Nat) >>> 5 ≠ 2 → mpsse_swd_write 32 = .failure)) :=
  ⟨by decide, C4_ack_result 32 0 0 0 0 0 (by decide)⟩

/-! ## C1: pipelined bulk reads -/

/-- The CSW value rewritten by read_words always has the auto-increment
bit (bit 4) set. -/
theorem csw_autoinc_set (x : Nat) :
    ((x &&& 0xFFFFF000) ||| (1 <<< 4) ||| 2) &&& (1 <<< 4) ≠ 0 := by
  have h4 : (1 <<< 4 : Nat) = 2^4 := by decide
  rw [h4]
  have ht : (((x &&& 0xFFFFF000) ||| 2^4 ||| 2)).testBit 4 = true := by
    rw [Nat.testBit_or, Nat.testBit_or]
    have h16 : Nat.testBit (2^4) 4 = true := by decide
    rw [h16, Bool.or_true, Bool.true_or]
  rw [Nat.and_two_pow, ht]
  norm_num

/-- Shifting the incremented TAR through the successive-address map:
prepending the word at `t` to the reads starting at `t + 4` gives the
reads starting at `t`. -/
theorem map_shift_succ (mem : Nat → Nat) (t k : Nat) :
    mem t :: (List.range k).map (fun i => mem (t + 4 + 4 * i)) =
      (List.range (k + 1)).map (fun i => mem (t + 4 * i)) := by
  rw [List.range_succ_eq_map, List.map_cons, List.map_map]
  refine congrArg₂ List.cons ?_ ?_
  · rw [Nat.mul_zero, Nat.add_zero]
  · refine List.map_congr_left fun i _ => ?_
    simp only [Function.comp]
    congr 1
    omega

/-- Value sequence of the read_words step loop: from a state with
auto-increment enabled whose remaining reads do not cross the 1 KiB
auto-increment boundary, `n + 1` steps return the latched value followed
by the memory words at successive addresses starting at TAR. -/
theorem read_words_loop_vals (mem : Nat → Nat) (n : Nat) :
    ∀ s : MemSys, s.csw &&& (1 <<< 4) ≠ 0 → s.tar % 1024 + 4 * n ≤ 1024 →
      (read_words_loop mem s (n + 1)).1 =
        s.posted :: (List.range n).map (fun i => mem (s.tar + 4 * i)) := by
  induction n with
  | zero =>
      intro s _ _
      rfl
  | succ k ih =>
      intro s hc hb
      have hb1 : tarInc s.tar % 1024 + 4 * k ≤ 1024 := by
        unfold tarInc
        omega
      have hstep :
          read_words_loop mem s (k + 2) =
            (s.posted :: (read_words_loop mem (sysStartRead mem s 0x0C) (k + 1)).1,
             (read_words_loop mem (sysStartRead mem s 0x0C) (k + 1)).2) := rfl
      have hs1 : sysStartRead mem s 0x0C =
          { csw := s.csw, tar := tarInc s.tar, posted := mem s.tar } := by
        unfold sysStartRead apReadReg
        rw [if_neg (by norm_num), if_neg (by norm_num), if_pos rfl, if_pos hc]
      rw [hstep, hs1,
        ih { csw := s.csw, tar := tarInc s.tar, posted := mem s.tar } hc hb1]
      rcases k with _ | k
      · simp [List.range_succ]
      · have htar : tarInc s.tar = s.tar + 4 := by
          unfold tarInc
          omega
        rw [htar]
        exact congrArg (s.posted :: ·) (map_shift_succ mem s.tar (k + 1))

/-- C1 counterexample: at count = 1, the trace of DAP operations that
read_words issues after the TAR write is one start followed by one step of
DRW — not one start followed by a read of RDBUFF as the claim states. -/
theorem C1_read_words_counterexample :
    ¬ ((read_words (fun _ => 0) ⟨0, 0, 0⟩ 0 1).2.1).drop 4 =
        [TOp.startReadAp 0x0C] ++ List.replicate (1 - 1) (TOp.stepReadAp 0x0C)
          ++ [TOp.readRdbuff] := by decide

/-- C1 (amended): for a word-aligned address and count n ≥ 1 whose
transfer does not cross a 1 KiB auto-increment boundary, read_words
configures CSW for auto-increment 4-byte transactions preserving the
reserved top bits, writes TAR once, then issues exactly one start_read_ap
of DRW followed by n step_read_ap of DRW (and no trailing read_rdbuff),
and returns the n memory words at successive addresses in submission
order. -/
theorem C1_read_words_amended (mem : Nat → Nat) (s : MemSys)
    (addr count : Nat) (h1 : 1 ≤ count) (_h4 : addr % 4 = 0)
    (_h32 : addr < 2^32) (hb : addr % 1024 + 4 * count ≤ 1024) :
    (read_words mem s addr count).2.1 =
      [TOp.startReadAp 0x00, TOp.readRdbuff,
       TOp.writeAp 0x00 ((s.csw &&& 0xFFFFF000) ||| (1 <<< 4) ||| 2),
       TOp.writeAp 0x04 addr, TOp.startReadAp 0x0C]
        ++ List.replicate count (TOp.stepReadAp 0x0C) ∧
    (read_words mem s addr count).1 =
      (List.range count).map (fun i => mem (addr + 4 * i)) := by
  obtain ⟨k, rfl⟩ : ∃ k, count = k + 1 := ⟨count - 1, by omega⟩
  have hcond : ((s.csw &&& 0xFFFFF000) ||| (1 <<< 4) ||| 2) &&& (1 <<< 4) ≠ 0 :=
    csw_autoinc_set s.csw
  constructor
  · rfl
  · have hvals :
        (read_words mem s addr (k + 1)).1 =
          (read_words_loop mem
            (sysStartRead mem
              ⟨(s.csw &&& 0xFFFFF000) ||| (1 <<< 4) ||| 2, addr, s.csw⟩ 0x0C)
            (k + 1)).1 := rfl
    have hstart :
        sysStartRead mem
            ⟨(s.csw &&& 0xFFFFF000) ||| (1 <<< 4) ||| 2, addr, s.csw⟩ 0x0C =
          ⟨(s.csw &&& 0xFFFFF000) ||| (1 <<< 4) ||| 2, tarInc addr, mem addr⟩ := by
      unfold sysStartRead apReadReg
      rw [if_neg (by norm_num), if_neg (by norm_num), if_pos rfl, if_pos hcond]
    have hbk : tarInc addr % 1024 + 4 * k ≤ 1024 := by
      unfold tarInc
      omega
    rw [hvals, hstart, read_words_loop_vals mem k _ hcond hbk]
    rcases k with _ | k
    · simp [List.range_succ]
    · have htar : tarInc addr = addr + 4 := by
        unfold tarInc
        omega
      rw [htar]
      exact map_shift_succ mem addr (k + 1)

/-- Witness for the amended C1 at address 8, count 2, over the memory that
stores the word address at each word. -/
theorem C1_read_words_amended_witness :
    1 ≤ 2 ∧ (8 : Nat) % 4 = 0 ∧ (8 : Nat) < 2^32 ∧
    (8 : Nat) % 1024 + 4 * 2 ≤ 1024 ∧
    ((read_words (fun a => a) ⟨0, 0, 0⟩ 8 2).2.1 =
      [TOp.startReadAp 0x00, TOp.readRdbuff,
       TOp.writeAp 0x00 (((0 : Nat) &&& 0xFFFFF000) ||| (1 <<< 4) ||| 2),
       TOp.writeAp 0x04 8, TOp.startReadAp 0x0C]
        ++ List.replicate 2 (TOp.stepReadAp 0x0C) ∧
     (read_words (fun a => a) ⟨0, 0, 0⟩ 8 2).1 =
      (List.range 2).map (fun i => (fun a => a) (8 + 4 * i))) :=
  ⟨by decide, by decide, by decide, by decide,
   C1_read_words_amended (fun a => a) ⟨0, 0, 0⟩ 8 2 (by decide) (by decide) (by decide)
     (by decide)⟩

/-! ## C2: reset-and-halt -/

/-- poll_for_halt only ever returns success or try_again. -/
theorem poll_for_halt_cases (dhcsr dfsr mask : Nat) :
    poll_for_halt dhcsr dfsr mask = .success ∨
      poll_for_halt dhcsr dfsr mask = .try_again := by
  unfold poll_for_halt
  split_ifs <;> simp

/-- If some poll within the budget reports the halt condition, the retry
loop returns success. -/
theorem retry_poll_success (polls : Nat → Nat × Nat) (mask : Nat) :
    ∀ b k, (∃ j, j < b ∧ poll_for_halt (polls (k + j)).1 (polls (k + j)).2 mask = .success) →
      (retry_poll polls mask b k).1 = .success := by
  intro b
  induction b with
  | zero =>
      rintro k ⟨j, hj, _⟩
      omega
  | succ b ih =>
      rintro k ⟨j, hj, hs⟩
      rcases poll_for_halt_cases (polls k).1 (polls k).2 mask with hc | hc
      · unfold retry_poll
        rw [hc]
      · unfold retry_poll
        rw [hc]
        apply ih (k + 1)
        have hj0 : j ≠ 0 := by
          intro h0
          rw [h0, Nat.add_zero] at hs
          rw [hs] at hc
          exact Error.noConfusion hc
        refine ⟨j - 1, by omega, ?_⟩
        have : k + 1 + (j - 1) = k + j := by omega
        rw [this]
        exact hs

/-- C2 counterexample: reset_and_halt writes AIRCR = 0x05FA0001
(VECTKEY | VECTRESET), not 0x05FA0004 (VECTKEY | SYSRESETREQ) as the
claim states; with DEMCR = 0 and a target that halts at the first poll,
the second poke is to AIRCR with value 0x05FA0001 and no poke of
0x05FA0004 occurs. -/
theorem C2_reset_and_halt_counterexample :
    (reset_and_halt 0 (fun _ => (1 <<< 17, 1 <<< 3))).2.1[1]? =
        some (AIRCR, 0x05FA0001) ∧
      (0x05FA0001 : Nat) ≠ 0x05FA0004 ∧
      ¬ (AIRCR, 0x05FA0004) ∈ (reset_and_halt 0 (fun _ => (1 <<< 17, 1 <<< 3))).2.1 := by
  decide

/-- C2 (amended): reset_and_halt reads and saves DEMCR, writes DEMCR with
bits 0, 10 and 24 set in addition to the saved value, writes
AIRCR = VECTKEY | VECTRESET = 0x05FA0001, polls with a bounded retry
until the core is halted with DFSR.VCATCH set, and restores DEMCR to its
exact pre-call value. -/
theorem C2_reset_and_halt_amended (demcr0 : Nat) (polls : Nat → Nat × Nat)
    (h : ∃ j, j < 1000 ∧ poll_for_halt (polls j).1 (polls j).2 (1 <<< 3) = .success) :
    (reset_and_halt demcr0 polls).1 = .success ∧
    (reset_and_halt demcr0 polls).2.1 =
      [(DEMCR, demcr0 ||| (1 <<< 0) ||| (1 <<< 10) ||| (1 <<< 24)),
       (AIRCR, 0x05FA0001),
       (DEMCR, demcr0)] := by
  have hs : (retry_poll polls (1 <<< 3) 1000 0).1 = .success := by
    apply retry_poll_success polls (1 <<< 3) 1000 0
    obtain ⟨j, hj, hcond⟩ := h
    exact ⟨j, hj, by rw [Nat.zero_add]; exact hcond⟩
  unfold reset_and_halt
  rcases hval : retry_poll polls (1 <<< 3) 1000 0 with ⟨e, k⟩
  rw [hval] at hs
  simp only at hs
  subst hs
  exact ⟨rfl, rfl⟩

/-- Witness for the amended C2 with DEMCR = 5 and a target that reports
S_HALT and VCATCH at the first poll. -/
theorem C2_reset_and_halt_amended_witness :
    (∃ j, j < 1000 ∧
      poll_for_halt ((fun _ => ((1 <<< 17 : Nat), (1 <<< 3 : Nat))) j).1
        ((fun _ => ((1 <<< 17 : Nat), (1 <<< 3 : Nat))) j).2 (1 <<< 3) = .success) ∧
    ((reset_and_halt 5 (fun _ => (1 <<< 17, 1 <<< 3))).1 = .success ∧
     (reset_and_halt 5 (fun _ => (1 <<< 17, 1 <<< 3))).2.1 =
       [(DEMCR, 5 ||| (1 <<< 0) ||| (1 <<< 10) ||| (1 <<< 24)),
        (AIRCR, 0x05FA0001),
        (DEMCR, 5)]) :=
  ⟨⟨0, by omega, by decide⟩,
   C2_reset_and_halt_amended 5 (fun _ => (1 <<< 17, 1 <<< 3)) ⟨0, by omega, by decide⟩⟩

end Swddude
